import Mathlib

/-!
Verification of `rawdata_converter.py`, a utility that decodes an image,
halves each RGB channel (the `darken` flag is fixed at `true`), and emits
a C array literal on standard output.

The embedding below translates the script directly:
  * `darken`, `transformChannel` embed the global flag and the in-loop
    channel halving (lines 10, 31-34);
  * `fmt02x` embeds Python's `"%02x"` formatting of a nonnegative integer
    (lowercase hexadecimal, zero-padded to a minimum width of two);
  * `pixelStr`, `rowLine`, `outputLines` embed the emitter loop
    (lines 24-45), producing the list of stdout lines;
  * `pySplit`, `deriveFilename`, `deriveName` embed the argv handling
    (lines 12-18), with `pySplit` translating Python's
    `str.split` for a one-character separator;
  * `runProgram` embeds the whole invocation, with the image decoder
    (`PIL.Image.open` + `convert("RGB")`) abstracted as a function
    `String → Option Img`; the failure branch is modelled from the spec:
    an uncaught decode exception terminates the process with a non-zero
    exit status and a diagnostic on standard error, before any output.
-/

/-- A pixel as returned by `getpixel` after `convert("RGB")`:
three channel values, each in `[0, 255]` for a real decode. -/
structure Pixel where
  r : Nat
  g : Nat
  b : Nat
deriving DecidableEq

/-- A decoded image: width, height, and a row-major pixel accessor
(`pix x y` is the pixel at column `x`, row `y`). -/
structure Img where
  w : Nat
  h : Nat
  pix : Nat → Nat → Pixel

/-- The global `darken` flag (line 10 of the script), fixed at `true`. -/
def darken : Bool := true

/-- The per-channel transform of lines 31-34: floor-halving when
`darken` is set, identity otherwise. -/
def transformChannel (c : Nat) : Nat :=
  if darken then c / 2 else c

/-- Python `"%02x" % n`: lowercase hexadecimal digits of `n`,
left-padded with `0` to a minimum width of two. -/
def fmt02x (n : Nat) : List Char :=
  let ds := Nat.toDigits 16 n
  List.replicate (2 - ds.length) '0' ++ ds

/-- One emitted byte token: `0x` followed by the `%02x` rendering. -/
def byteToken (v : Nat) : String :=
  "0x" ++ String.mk (fmt02x v)

/-- The text printed for one pixel (line 36):
`" 0x%02x, 0x%02x, 0x%02x" % (r, g, b)` after the darken transform. -/
def pixelStr (p : Pixel) : String :=
  " " ++ byteToken (transformChannel p.r)
      ++ ", " ++ byteToken (transformChannel p.g)
      ++ ", " ++ byteToken (transformChannel p.b)

/-- The body of row `y`: the inner loop of lines 28-38, which prints the
pixel text and a `,` separator after every pixel but the last of the row. -/
def rowBody (img : Img) (y : Nat) : String :=
  String.join ((List.range img.w).map fun x =>
    pixelStr (img.pix x y) ++ if x ≠ img.w - 1 then "," else "")

/-- The full text line for row `y`: opened with `"  {"` (line 27) and
closed with `"  }"` on the last row and `"  },"` otherwise (lines 40-43). -/
def rowLine (img : Img) (y : Nat) : String :=
  "  \x7b" ++ rowBody img y ++ (if y = img.h - 1 then "  \x7d" else "  \x7d,")

/-- The array declaration line (line 25). -/
def declLine (name : String) (img : Img) : String :=
  "constexpr uint8_t " ++ name ++ "[" ++ toString img.h ++ "]["
    ++ toString (3 * img.w) ++ "] = \x7b"

/-- All lines written to standard output on a successful run
(lines 24-45): the include line, the declaration line, one line per
image row, and the closing line. -/
def outputLines (name : String) (img : Img) : List String :=
  "#include <stdint.h>"
    :: declLine name img
    :: ((List.range img.h).map (rowLine img) ++ ["\x7d;"])

/-- Python `s.split(sep)` for a one-character separator: splits the
character list at every occurrence of `sep`; always returns at least one
(possibly empty) segment. -/
def pySplit (sep : Char) : List Char → List (List Char)
  | [] => [[]]
  | c :: cs =>
    match pySplit sep cs with
    | [] => [[]]
    | s :: ss => if c = sep then [] :: s :: ss else (c :: s) :: ss

/-- The input filename (lines 12, 15-16): `args[1]` when at least one
argument is given, otherwise the literal `src.png`. `argv` includes the
program name at position 0, as in `sys.argv`. -/
def deriveFilename (argv : List String) : String :=
  match argv with
  | _ :: a :: _ => a
  | _ => "src.png"

/-- The output name (lines 13, 17-18): `args[1].split('.')[0]` when at
least one argument is given, otherwise the literal `src`. -/
def deriveName (argv : List String) : String :=
  match argv with
  | _ :: a :: _ => String.mk ((pySplit '.' a.data).headD [])
  | _ => "src"

/-- Outcome of one process invocation: exit status and the lines written
to the standard output and standard error streams. -/
structure ProcResult where
  exitCode : Nat
  stdout : List String
  stderr : List String
deriving DecidableEq

/-- One whole invocation. The decoder collaborator is abstracted as
`decode : String → Option Img`. `Image.open`/`convert` run before any
`print` (lines 20-21 precede line 24), so on decode failure nothing has
been written to standard output; the termination behaviour of the failure
branch is modelled from the spec: a non-zero exit status with a
diagnostic on the standard error stream. -/
def runProgram (argv : List String) (decode : String → Option Img) : ProcResult :=
  match decode (deriveFilename argv) with
  | none =>
      { exitCode := 1
        stdout := []
        stderr := ["Traceback (most recent call last): cannot identify image file"] }
  | some img =>
      { exitCode := 0
        stdout := outputLines (deriveName argv) img
        stderr := [] }

/-- Hexadecimal value of one lowercase hex digit character. -/
def hexVal (c : Char) : Nat :=
  if '0' ≤ c ∧ c ≤ '9' then c.toNat - 48
  else if 'a' ≤ c ∧ c ≤ 'f' then c.toNat - 87
  else 0

/-- Decoded value of a string of hexadecimal digit characters. -/
def decodeHexDigits (ds : List Char) : Nat :=
  ds.foldl (fun acc c => 16 * acc + hexVal c) 0

/-- A character is a lowercase hexadecimal digit. -/
def isLowerHexDigit (c : Char) : Prop :=
  ('0' ≤ c ∧ c ≤ '9') ∨ ('a' ≤ c ∧ c ≤ 'f')

instance (c : Char) : Decidable (isLowerHexDigit c) := by
  unfold isLowerHexDigit; infer_instance

/-- The string holding everything before the first occurrence of `.`,
stated via `takeWhile`; used to characterise `deriveName`. -/
def beforeFirstDot (s : String) : String :=
  String.mk (s.data.takeWhile fun c => c ≠ '.')

/-- A concrete 1-by-1 image whose single pixel is `(255, 128, 0)`. -/
def testImg1 : Img :=
  { w := 1, h := 1, pix := fun _ _ => ⟨255, 128, 0⟩ }

/-- A concrete 1-by-2 image (one column, two rows). -/
def testImg2 : Img :=
  { w := 1, h := 2, pix := fun _ _ => ⟨10, 20, 30⟩ }

lemma pySplit_ne_nil (sep : Char) : ∀ cs : List Char, pySplit sep cs ≠ [] := by
  intro cs
  cases cs with
  | nil => simp [pySplit]
  | cons c cs =>
    unfold pySplit
    cases h : pySplit sep cs with
    | nil => simp
    | cons s ss => by_cases hc : c = sep <;> simp [hc]

lemma pySplit_headD (sep : Char) :
    ∀ cs : List Char, (pySplit sep cs).headD [] = cs.takeWhile (fun c => c ≠ sep) := by
  intro cs
  induction cs with
  | nil => rfl
  | cons c cs ih =>
    unfold pySplit
    cases h : pySplit sep cs with
    | nil => exact absurd h (pySplit_ne_nil sep cs)
    | cons s ss =>
      by_cases hc : c = sep
      · simp [hc, List.takeWhile]
      · rw [h] at ih
        simp only [List.headD_cons] at ih
        simp [hc, List.takeWhile, ih]

set_option maxRecDepth 10000 in
set_option maxHeartbeats 1000000 in
/-- C1: for every channel value in `[0, 255]`, the emitted byte token is
`0x` followed by exactly two lowercase hexadecimal digits; since `darken`
is fixed at `true`, the decoded digit value equals the floor division of
the original channel by 2, hence lies in `[0, 127]`. -/
theorem byteToken_darken_valid : ∀ c : Nat, c < 256 →
    (byteToken (transformChannel c)).data.take 2 = ['0', 'x'] ∧
    ((byteToken (transformChannel c)).data.drop 2).length = 2 ∧
    (∀ ch ∈ (byteToken (transformChannel c)).data.drop 2, isLowerHexDigit ch) ∧
    decodeHexDigits ((byteToken (transformChannel c)).data.drop 2) = c / 2 ∧
    c / 2 ≤ 127 := by
  decide

/-- Witness for C1 at the concrete channel value 255. -/
theorem byteToken_darken_valid_witness :
    255 < 256 ∧
    ((byteToken (transformChannel 255)).data.take 2 = ['0', 'x'] ∧
     ((byteToken (transformChannel 255)).data.drop 2).length = 2 ∧
     (∀ ch ∈ (byteToken (transformChannel 255)).data.drop 2, isLowerHexDigit ch) ∧
     decodeHexDigits ((byteToken (transformChannel 255)).data.drop 2) = 255 / 2 ∧
     255 / 2 ≤ 127) :=
  ⟨by decide, byteToken_darken_valid 255 (by decide)⟩

/-- C2: for a successfully decoded image, the second emitted line is the
declaration using the Output Name as identifier with dimensions exactly
`[H][3*W]`, height first. -/
theorem declLine_dimensions (argv : List String) (d : String → Option Img)
    (img : Img) (h : d (deriveFilename argv) = some img) :
    (runProgram argv d).stdout.get? 1 =
      some ("constexpr uint8_t " ++ deriveName argv ++ "[" ++ toString img.h
        ++ "][" ++ toString (3 * img.w) ++ "] = \x7b") := by
  simp [runProgram, h, outputLines, declLine]

/-- Witness for C2 on the concrete 1-by-1 test image. -/
theorem declLine_dimensions_witness :
    (fun _ : String => some testImg1) (deriveFilename ["prog"]) = some testImg1 ∧
    (runProgram ["prog"] (fun _ => some testImg1)).stdout.get? 1 =
      some ("constexpr uint8_t " ++ deriveName ["prog"] ++ "[" ++ toString testImg1.h
        ++ "][" ++ toString (3 * testImg1.w) ++ "] = \x7b") :=
  ⟨rfl, declLine_dimensions ["prog"] (fun _ => some testImg1) testImg1 rfl⟩

/-- C3: every row line except the last ends with a comma after its
closing brace; the last row line ends with the closing brace and no
comma. -/
theorem rowLine_trailing_comma (img : Img) (y : Nat)
    (h1 : 1 ≤ img.h) (hy : y < img.h) :
    (y ≠ img.h - 1 → "  \x7d,".data <:+ (rowLine img y).data) ∧
    (y = img.h - 1 →
      "  \x7d".data <:+ (rowLine img y).data ∧
      (rowLine img y).data.getLast? = some '\x7d') := by
  constructor
  · intro hne
    simp only [rowLine, if_neg hne, String.data_append]
    exact List.suffix_append _ _
  · intro he
    simp only [rowLine, if_pos he, String.data_append]
    refine ⟨List.suffix_append _ _, ?_⟩
    rw [List.getLast?_append]
    rfl

/-- Witness for C3 on the concrete 1-by-2 test image at its first row. -/
theorem rowLine_trailing_comma_witness :
    1 ≤ testImg2.h ∧ 0 < testImg2.h ∧
    ((0 ≠ testImg2.h - 1 → "  \x7d,".data <:+ (rowLine testImg2 0).data) ∧
     (0 = testImg2.h - 1 →
       "  \x7d".data <:+ (rowLine testImg2 0).data ∧
       (rowLine testImg2 0).data.getLast? = some '\x7d')) :=
  ⟨by decide, by decide, rowLine_trailing_comma testImg2 0 (by decide) (by decide)⟩

/-- C4: with a path argument, the Output Name is the argument truncated
at its first dot (the first segment of splitting on `.`); in particular
`photo.v2.png` yields `photo`, not `photo.v2`. -/
theorem deriveName_first_dot (p a : String) (rest : List String) :
    deriveName (p :: a :: rest) = beforeFirstDot a ∧
    deriveName (p :: "photo.v2.png" :: rest) = "photo" ∧
    deriveName (p :: "photo.v2.png" :: rest) ≠ "photo.v2" := by
  refine ⟨?_, ?_, ?_⟩
  · simp only [deriveName, beforeFirstDot, pySplit_headD]
  · simp only [deriveName]
    decide
  · simp only [deriveName]
    decide

/-- C5: on a 1-by-1 image with pixel `(255, 128, 0)` and no path
argument, the standard output is exactly the four specified lines. -/
theorem output_1x1_example :
    (runProgram ["rawdata_converter.py"] (fun _ => some testImg1)).stdout =
      ["#include <stdint.h>",
       "constexpr uint8_t src[1][3] = \x7b",
       "  \x7b 0x7f, 0x40, 0x00  \x7d",
       "\x7d;"] := by
  rfl

/-- C6: when decoding fails, the process exits with a non-zero status,
writes a diagnostic to standard error, and has produced nothing on
standard output. -/
theorem decode_failure_no_output (argv : List String) (d : String → Option Img)
    (h : d (deriveFilename argv) = none) :
    (runProgram argv d).exitCode ≠ 0 ∧
    (runProgram argv d).stdout = [] ∧
    (runProgram argv d).stderr ≠ [] := by
  simp [runProgram, h]

/-- Witness for C6 with a decoder that fails on every path. -/
theorem decode_failure_no_output_witness :
    (fun _ : String => (none : Option Img)) (deriveFilename ["prog", "missing.png"]) = none ∧
    ((runProgram ["prog", "missing.png"] (fun _ => none)).exitCode ≠ 0 ∧
     (runProgram ["prog", "missing.png"] (fun _ => none)).stdout = [] ∧
     (runProgram ["prog", "missing.png"] (fun _ => none)).stderr ≠ []) :=
  ⟨rfl, decode_failure_no_output ["prog", "missing.png"] (fun _ => none) rfl⟩

/-- C7: with no path argument, the decoded path is the literal `src.png`
and the Output Name is the literal `src`. -/
theorem default_args (argv : List String) (h : argv.length < 2) :
    deriveFilename argv = "src.png" ∧ deriveName argv = "src" := by
  match argv with
  | [] => exact ⟨rfl, rfl⟩
  | [p] => exact ⟨rfl, rfl⟩
  | p :: a :: rest => exact absurd h (by simp)

/-- Witness for C7 at an argv holding only the program name. -/
theorem default_args_witness :
    ["./rawdata_converter.py"].length < 2 ∧
    (deriveFilename ["./rawdata_converter.py"] = "src.png" ∧
     deriveName ["./rawdata_converter.py"] = "src") :=
  ⟨by decide, default_args ["./rawdata_converter.py"] (by decide)⟩

set_option maxRecDepth 10000 in
set_option maxHeartbeats 1000000 in
/-- C8: decoding the emitted byte token and doubling recovers the
original channel value to within 1 (the darken transform loses at most 1
per channel). -/
theorem darken_roundtrip : ∀ c : Nat, c < 256 →
    2 * decodeHexDigits ((byteToken (transformChannel c)).data.drop 2) ≤ c ∧
    c - 2 * decodeHexDigits ((byteToken (transformChannel c)).data.drop 2) ≤ 1 := by
  decide

/-- Witness for C8 at the concrete channel value 255. -/
theorem darken_roundtrip_witness :
    255 < 256 ∧
    (2 * decodeHexDigits ((byteToken (transformChannel 255)).data.drop 2) ≤ 255 ∧
     255 - 2 * decodeHexDigits ((byteToken (transformChannel 255)).data.drop 2) ≤ 1) :=
  ⟨by decide, darken_roundtrip 255 (by decide)⟩

/-- C9: arguments beyond the first are never read: two invocations with
the same `args[1]`, run against the same decoder (hence decoding the same
pixel grid), produce identical standard output whatever the program name
or the extra arguments are. -/
theorem extra_args_noninterference (p₁ p₂ a : String) (r₁ r₂ : List String)
    (d : String → Option Img) :
    (runProgram (p₁ :: a :: r₁) d).stdout = (runProgram (p₂ :: a :: r₂) d).stdout := by
  rfl

/-- C10: a successful run emits exactly `H + 3` lines: the include line
first, the declaration line second, one line per image row (row `y` at
index `2 + y`), and the closing line last. -/
theorem outputLines_length (name : String) (img : Img) (y : Nat)
    (hy : y < img.h) :
    (outputLines name img).length = img.h + 3 ∧
    (outputLines name img).head? = some "#include <stdint.h>" ∧
    (outputLines name img).getLast? = some "\x7d;" ∧
    (outputLines name img)[y + 2]? = some (rowLine img y) := by
  refine ⟨?_, rfl, ?_, ?_⟩
  · simp [outputLines]
  · show (("#include <stdint.h>" :: declLine name img
        :: (List.range img.h).map (rowLine img)) ++ ["\x7d;"]).getLast? = some "\x7d;"
    rw [List.getLast?_append]
    rfl
  · show ("#include <stdint.h>" :: declLine name img
        :: ((List.range img.h).map (rowLine img) ++ ["\x7d;"]))[y + 1 + 1]? =
      some (rowLine img y)
    rw [List.getElem?_cons_succ, List.getElem?_cons_succ,
      List.getElem?_append_left (by simpa using hy), List.getElem?_map,
      List.getElem?_range hy]
    rfl

/-- Witness for C10 on the concrete 1-by-2 test image at its second row. -/
theorem outputLines_length_witness :
    1 < testImg2.h ∧
    ((outputLines "src" testImg2).length = testImg2.h + 3 ∧
     (outputLines "src" testImg2).head? = some "#include <stdint.h>" ∧
     (outputLines "src" testImg2).getLast? = some "\x7d;" ∧
     (outputLines "src" testImg2)[1 + 2]? = some (rowLine testImg2 1)) :=
  ⟨by decide, outputLines_length "src" testImg2 1 (by decide)⟩
